import Mathlib

/-!
Verification of the BSOD crash-dump analyzer core
(`bsod_analyzer/core/{analyzer,parser,pagedump_parser,driver_detector}.py`).

Shallow embedding conventions:
* machine integers (addresses, sizes, byte values) are `Nat`;
* Python `float` confidence arithmetic is modelled over `ℚ` (the code only
  adds the decimal constants 0.5, 0.15, 0.25, 0.1 and clamps with `min`);
* a dump file is a `List Nat` of its bytes; `f.seek/f.read` is drop/take;
* fallible code returns `Except`/`Option`;
* Python string lowering and substring tests are modelled on `List Char`
  (`Char.toLower` mapped over the characters), since the driver tables are
  ASCII;
* the bugcheck knowledge base and the optional custom bad-driver JSON file
  are external inputs of the analyzer (the spec lists them as out-of-scope
  collaborators), so every function that consults them takes them as an
  explicit parameter.
-/

namespace BSOD

/-! ## Data model (`database/models.py`) -/

/-- Crash information extracted from a dump (`models.CrashInfo`; the optional
`process_name` and the raw `exception_record` dict are not consulted by any
claim and are omitted). -/
structure CrashInfo where
  bugcheck_code : Nat
  bugcheck_name : String
  bugcheck_description : String
  crash_address : Nat
  crash_thread_id : Nat
  parameters : List Nat := []
  deriving DecidableEq

/-- Driver/module information (`models.DriverInfo`; the optional
version/company/signing fields default and are not consulted by the core). -/
structure DriverInfo where
  name : String
  base_address : Nat
  size : Nat
  timestamp : Nat := 0
  deriving DecidableEq

/-- Single stack frame (`models.StackFrame`). -/
structure StackFrame where
  instruction_address : Nat
  module_name : String
  offset : Nat := 0
  deriving DecidableEq

/-- Stack trace of one thread (`models.StackTrace`). -/
structure StackTrace where
  thread_id : Nat
  frames : List StackFrame
  deriving DecidableEq

/-! ## String helpers: Python `s.lower()` and `needle in hay` -/

/-- Python `s.lower()` on the ASCII names the tables hold, as a char list. -/
def lower (s : String) : List Char := s.toList.map Char.toLower

/-- Helper for the substring test: does `hay` start with `needle`. -/
def list_starts_with : List Char → List Char → Bool
  | [], _ => true
  | _ :: _, [] => false
  | n :: ns, h :: hs => n == h && list_starts_with ns hs

/-- Python `needle in hay` for strings: `needle` occurs contiguously in `hay`. -/
def list_has_infix (hay needle : List Char) : Bool :=
  match hay with
  | [] => needle.isEmpty
  | _ :: t => list_starts_with needle hay || list_has_infix t needle

/-! ## Driver detector (`core/driver_detector.py`) -/

/-- Entry of the known-problematic-driver table (one value of the
`KNOWN_BAD_DRIVERS` dict, keyed by driver-file name). -/
structure BadDriverEntry where
  name : String
  issue : String
  recommendation : String
  deriving DecidableEq

/-- Built-in `KNOWN_BAD_DRIVERS` table, in dict insertion order.  `DriverDetector`
may extend it at startup from a JSON file, so the detector functions below take
the table as a parameter; this constant is the shipped default. -/
def KNOWN_BAD_DRIVERS : List BadDriverEntry := [
  ⟨"nvlddmkm.sys", "NVIDIA GPU driver - known to cause BSOD with certain configurations",
    "Update to latest NVIDIA driver or perform clean install"⟩,
  ⟨"amdkmdag.sys", "AMD GPU driver - can cause crashes with certain hardware",
    "Update AMD graphics drivers"⟩,
  ⟨"igdkmd64.sys", "Intel GPU driver - may cause system instability",
    "Update Intel graphics driver"⟩,
  ⟨"rtwlanu.sys", "Realtek USB WiFi driver - known stability issues",
    "Update Realtek driver or use alternative WiFi adapter"⟩,
  ⟨"netr28x.sys", "Ralink network driver - can cause BSOD",
    "Update or replace network driver"⟩,
  ⟨"avgtdix.sys", "AVG Antivirus driver - known conflicts",
    "Update AVG or temporarily disable for testing"⟩,
  ⟨"avghwnda.sys", "AVG driver component", "Update AVG Antivirus"⟩,
  ⟨"bdss.sys", "BitDefender security driver", "Update BitDefender or check for conflicts"⟩,
  ⟨"symefa.sys", "Symantec/Norton driver", "Update Norton Security"⟩,
  ⟨"symevent.sys", "Symantec event driver", "Update or remove Symantec product"⟩,
  ⟨"epfwwfp.sys", "ESET firewall driver", "Update ESET Security"⟩,
  ⟨"iaStorA.sys", "Intel RST driver - can cause BSOD with certain SSDs",
    "Update Intel Rapid Storage Technology driver"⟩,
  ⟨"iaStorV.sys", "Intel storage driver", "Update Intel RST driver"⟩,
  ⟨"vmm.sys", "VirtualBox memory manager", "Update VirtualBox or disable if not in use"⟩,
  ⟨"vboxdrv.sys", "VirtualBox driver", "Update VirtualBox"⟩,
  ⟨"vmci.sys", "VMware CI driver", "Update VMware Workstation"⟩,
  ⟨"rgl64vk.sys", "Razer game capture driver", "Update Razer software"⟩,
  ⟨" Nahimic.sys", "Nahimic audio driver - known BSOD issues",
    "Update or disable Nahimic audio service"⟩,
  ⟨"AiCharger.sys", "ASUS AI Charger driver", "Update or remove ASUS AI Suite"⟩,
  ⟨"AsIO.sys", "ASUS I/O driver for monitoring", "Update ASUS software"⟩,
  ⟨"ks.sys", "Windows kernel streaming - usually third-party filter driver issue",
    "Check audio/video capture software drivers"⟩]

/-- Python `DriverDetector.is_problematic`: some table key is a case-insensitive
substring of the driver name. -/
def is_problematic (known_bad : List BadDriverEntry) (driver : DriverInfo) : Bool :=
  known_bad.any fun bad => list_has_infix (lower driver.name) (lower bad.name)

/-- Python `DriverDetector.get_recommendation`: the recommendation of the first
table entry (dict order) whose key is a case-insensitive substring of the name. -/
def get_recommendation (known_bad : List BadDriverEntry) (driver : DriverInfo) :
    Option String :=
  (known_bad.find? fun bad => list_has_infix (lower driver.name) (lower bad.name)).map
    (fun bad => bad.recommendation)

/-- Hard-coded `system_drivers` allowlist of `DriverDetector.is_system_driver`. -/
def system_drivers : List String := [
  "ntoskrnl.exe", "hal.dll", "ntkrnlmp.exe", "ntkrnlpa.exe", "kernel32.dll",
  "ntdll.dll", "win32k.sys", "csrss.exe", "lsass.exe", "services.exe",
  "svchost.exe", "explorer.exe"]

/-- Python `DriverDetector.is_system_driver`: case-insensitive exact membership
in the allowlist. -/
def is_system_driver (driver_name : String) : Bool :=
  (system_drivers.map lower).contains (lower driver_name)

/-- Keyword table of `DriverDetector.classify_driver`, in dict insertion order. -/
def type_keywords : List (String × List String) := [
  ("graphics", ["nvlddmkm", "amdkmdag", "igdkmd", "nvidia", "amd", "intel", "gpu"]),
  ("network", ["net", "wifi", "wlan", "ethernet", "realtek", "broadcom"]),
  ("storage", ["stor", "disk", "raid", "ahci", "sata"]),
  ("audio", ["audio", "sound", "hdaudio", "realtek", "conexant"]),
  ("security", ["antivirus", "firewall", "security", "bdss", "avg", "norton"]),
  ("virtualization", ["vbox", "vmware", "virtual"])]

/-- Python `DriverDetector.classify_driver`: system allowlist first, then the
first keyword class (dict order) with a substring hit, else unknown. -/
def classify_driver (driver : DriverInfo) : String :=
  if is_system_driver driver.name then "system"
  else
    match type_keywords.find? fun p =>
        p.2.any fun keyword => list_has_infix (lower driver.name) keyword.toList with
    | some p => p.1
    | none => "unknown"

/-! ## Attribution engine (`core/analyzer.py`, class `BSODAnalyzer`) -/

/-- Boolean form of "driver contains address": the half-open interval test of
`BSODAnalyzer._find_driver_by_address` and `MinidumpParser._find_module_for_address`. -/
def contains_address (driver : DriverInfo) (address : Nat) : Bool :=
  decide (driver.base_address ≤ address ∧ address < driver.base_address + driver.size)

/-- Python `BSODAnalyzer._find_driver_by_address`: first driver of the list, in
the order the list was given, whose half-open range contains the address. -/
def find_driver_by_address (drivers : List DriverInfo) (address : Nat) :
    Option DriverInfo :=
  drivers.find? fun driver => contains_address driver address

/-- Python `MinidumpParser._find_module_for_address`: same scan over the module
list, returning the name, with "Unknown" when nothing contains the address. -/
def find_module_for_address (modules : List DriverInfo) (address : Nat) : String :=
  match modules.find? fun m => contains_address m address with
  | some m => m.name
  | none => "Unknown"

/-- Strategy 1 loop of `BSODAnalyzer._find_suspected_driver`: walk the stack
traces in order; for a trace with frames, resolve the first frame; return the
resolved driver unless it is on the system allowlist, otherwise keep walking. -/
def suspect_from_stack (drivers : List DriverInfo) :
    List StackTrace → Option DriverInfo
  | [] => none
  | trace :: rest =>
    match trace.frames with
    | [] => suspect_from_stack drivers rest
    | top_frame :: _ =>
      match find_driver_by_address drivers top_frame.instruction_address with
      | some driver =>
        if is_system_driver driver.name then suspect_from_stack drivers rest
        else some driver
      | none => suspect_from_stack drivers rest

/-- Python `BSODAnalyzer._find_suspected_driver`: strategy 1 (stack top frames),
then strategy 2 (first known-bad driver in list order), then strategy 3 (driver
containing the crash address), else none. -/
def find_suspected_driver (known_bad : List BadDriverEntry) (crash_info : CrashInfo)
    (drivers : List DriverInfo) (stack_traces : List StackTrace) : Option DriverInfo :=
  match suspect_from_stack drivers stack_traces with
  | some driver => some driver
  | none =>
    match drivers.find? fun driver => is_problematic known_bad driver with
    | some driver => some driver
    | none => find_driver_by_address drivers crash_info.crash_address

/-- Python condition `stack_traces and len(stack_traces[0].frames) > 0` of
`_calculate_confidence`. -/
def first_trace_has_frames : List StackTrace → Bool
  | [] => false
  | trace :: _ => !trace.frames.isEmpty

/-- Hard-coded `common_codes` list of `_calculate_confidence`. -/
def common_codes : List Nat := [0x0A, 0x3B, 0xD1, 0x50, 0x7E, 0x1E]

/-- Python `BSODAnalyzer._calculate_confidence`, modelled over `ℚ`: sequential
additive boosts on a 0.5 base, clamped by `min(confidence, 1.0)`. -/
def calculate_confidence (known_bad : List BadDriverEntry) (crash_info : CrashInfo)
    (suspected_driver : Option DriverInfo) (stack_traces : List StackTrace) : ℚ :=
  let confidence : ℚ := 1/2
  let confidence := if first_trace_has_frames stack_traces
    then confidence + 15/100 else confidence
  let confidence := if suspected_driver.isSome then confidence + 15/100 else confidence
  let confidence := match suspected_driver with
    | some driver => if is_problematic known_bad driver then confidence + 25/100
        else confidence
    | none => confidence
  let confidence := if common_codes.contains crash_info.bugcheck_code
    then confidence + 1/10 else confidence
  min confidence 1

/-- ASCII apostrophe, used by the f-string of `_generate_recommendations`. -/
def apostrophe : String := "\x27"

/-- Python `BSODAnalyzer._generate_recommendations` up to (but not including) the
final `list(set(recommendations))`: the recommendation strings in the order the
code appends them.  `kb_recommendations` stands for
`self.kb.get_recommendations(crash_info.bugcheck_code)`, an external collaborator. -/
def generate_recommendations_raw (known_bad : List BadDriverEntry)
    (kb_recommendations : List String) (suspected_driver : Option DriverInfo) :
    List String :=
  let recommendations : List String := [] ++ kb_recommendations
  let recommendations := recommendations ++
    match suspected_driver with
    | none => []
    | some driver =>
      if is_problematic known_bad driver then
        match get_recommendation known_bad driver with
        | some rec => if rec = "" then [] else ["Driver-specific: " ++ rec]
        | none => []
      else
        ["Update " ++ apostrophe ++ driver.name ++ apostrophe ++ " to the latest version"]
  let recommendations := recommendations ++
    match suspected_driver with
    | none => []
    | some driver =>
      let driver_type := classify_driver driver
      if driver_type = "graphics" then
        ["Graphics drivers are often the cause - try a clean install of GPU drivers"]
      else if driver_type = "network" then
        ["Network driver issues - update or temporarily disable network adapters"]
      else []
  recommendations

/-- Contract of the final `list(set(recommendations))`: CPython returns the set
in its hash-table iteration order, which is unspecified (and seed-dependent for
strings), so the code guarantees exactly that the output has no duplicates and
the same membership as its input list. -/
def PySetListResult (l out : List String) : Prop :=
  out.Nodup ∧ ∀ x : String, x ∈ out ↔ x ∈ l

/-- Helper of `dedup_keep_first` carrying the set of already-emitted strings. -/
def dedup_keep_first_aux (seen : List String) : List String → List String
  | [] => []
  | x :: xs =>
    if x ∈ seen then dedup_keep_first_aux seen xs
    else x :: dedup_keep_first_aux (x :: seen) xs

/-- Order-preserving deduplication keeping the first occurrence of each string;
this is what the claim asserts the output of the dedup step to be. -/
def dedup_keep_first (l : List String) : List String := dedup_keep_first_aux [] l

/-! ## Format detection (`core/parser.py`) -/

/-- Dump type tag set by `MinidumpParser._validate_file`. -/
inductive DumpType where
  | minidump
  | kernel_x64
  | kernel_x86
  deriving DecidableEq

/-- Error taxonomy of the file-validation and factory paths:
`FileNotFoundError`, empty-file `ValueError`, the invalid-signature
`ValueError` of `_validate_file` and the unsupported-signature `ValueError` of
`create_parser`; the two signature errors carry the offending first 8 bytes. -/
inductive ParseError where
  | NotFound
  | EmptyFile
  | InvalidSignature (sig : List Nat)
  | UnsupportedSignature (sig : List Nat)
  deriving DecidableEq

/-- Parser class chosen by the factory `create_parser`. -/
inductive ParserKind where
  | PageDumpKind
  | MinidumpKind
  deriving DecidableEq

/-- Bytes of the magic `b"MDMP"`. -/
def MDMP_MAGIC : List Nat := [77, 68, 77, 80]

/-- Bytes of the magic `b"PAGEDU64"`. -/
def PAGEDU64_MAGIC : List Nat := [80, 65, 71, 69, 68, 85, 54, 52]

/-- Bytes of the magic `b"PAGEDU48"`. -/
def PAGEDU48_MAGIC : List Nat := [80, 65, 71, 69, 68, 85, 52, 56]

/-- Python `MinidumpParser._validate_file` over (does the file exist, its stat
size, its bytes): existence and emptiness first, then the signature chain
`MDMP` / `PAGEDU64` / `PAGEDU48`, else the invalid-signature error carrying
`signature[:8]`.  `f.read(8)` is `bytes.take 8`. -/
def validate_file (file_exists : Bool) (st_size : Nat) (bytes : List Nat) :
    Except ParseError DumpType :=
  if file_exists = false then .error .NotFound
  else if st_size = 0 then .error .EmptyFile
  else
    let signature := bytes.take 8
    if signature.take 4 = MDMP_MAGIC then .ok .minidump
    else if signature.take 8 = PAGEDU64_MAGIC then .ok .kernel_x64
    else if signature.take 8 = PAGEDU48_MAGIC then .ok .kernel_x86
    else .error (.InvalidSignature (signature.take 8))

/-- Python `create_parser` factory dispatch: existence and emptiness first,
then `PAGEDU64` selects the page-dump decoder, `MDMP` the structured-minidump
decoder, and anything else (including `PAGEDU48`) raises the unsupported
signature error carrying `signature[:8]`. -/
def createParser (file_exists : Bool) (st_size : Nat) (bytes : List Nat) :
    Except ParseError ParserKind :=
  if file_exists = false then .error .NotFound
  else if st_size = 0 then .error .EmptyFile
  else
    let signature := bytes.take 8
    if signature.take 8 = PAGEDU64_MAGIC then .ok .PageDumpKind
    else if signature.take 4 = MDMP_MAGIC then .ok .MinidumpKind
    else .error (.UnsupportedSignature (signature.take 8))

/-! ## Kernel-dump header decoder (`core/pagedump_parser.py`) -/

/-- Python `PageDumpParser._read_bytes`: seek and read, short at end of file. -/
def read_bytes (file : List Nat) (offset size : Nat) : List Nat :=
  (file.drop offset).take size

/-- Little-endian value of a byte list (what `struct.unpack` computes on the
bytes the reads return). -/
def le_value : List Nat → Nat
  | [] => 0
  | b :: rest => b + 256 * le_value rest

/-- Python `PageDumpParser._read_u32`: `struct.unpack` fails unless the read
returned exactly 4 bytes. -/
def read_u32 (file : List Nat) (offset : Nat) : Option Nat :=
  let data := read_bytes file offset 4
  if data.length = 4 then some (le_value data) else none

/-- Python `PageDumpParser._read_u64`: exactly 8 bytes, little endian. -/
def read_u64 (file : List Nat) (offset : Nat) : Option Nat :=
  let data := read_bytes file offset 8
  if data.length = 8 then some (le_value data) else none

/-- Parsed `DUMP_HEADER64` fields (`pagedump_parser.DumpHeader`; the fields the
code always zero-fills are omitted). -/
structure DumpHeader where
  signature : List Nat
  major_version : Nat
  minor_version : Nat
  directory_table_base : Nat
  machine_image_type : Nat
  number_processors : Nat
  bugcheck_code : Nat
  bugcheck_parameter1 : Nat
  bugcheck_parameter2 : Nat
  bugcheck_parameter3 : Nat
  bugcheck_parameter4 : Nat
  deriving DecidableEq

/-- Python `PageDumpParser._parse_header`: fixed-offset reads (0x08, 0x0C,
0x10, 0x30, 0x34, 0x40, 0x44, 0x4C, 0x54, 0x5C); any short read raises, which
the embedding models as `none`. -/
def parse_header (file : List Nat) : Option DumpHeader :=
  match read_u32 file 0x08, read_u32 file 0x0C, read_u64 file 0x10,
      read_u32 file 0x30, read_u32 file 0x34, read_u32 file 0x40,
      read_u64 file 0x44, read_u64 file 0x4C, read_u64 file 0x54,
      read_u64 file 0x5C with
  | some major, some minor, some dtb, some machine, some procs, some bugcheck,
    some p1, some p2, some p3, some p4 => some {
    signature := read_bytes file 0x00 8
    major_version := major
    minor_version := minor
    directory_table_base := dtb
    machine_image_type := machine
    number_processors := procs
    bugcheck_code := bugcheck
    bugcheck_parameter1 := p1
    bugcheck_parameter2 := p2
    bugcheck_parameter3 := p3
    bugcheck_parameter4 := p4 }
  | _, _, _, _, _, _, _, _, _, _ => none

/-- Python `PageDumpParser.extract_crash_info`: bugcheck code from the header,
crash address from bugcheck parameter 1, thread id 0, the four parameters.
`kb_info` stands for `BugcheckKnowledgeBase.get_bugcheck_info`, the external
knowledge-base collaborator returning (name, description). -/
def extract_crash_info (kb_info : Nat → String × String) (header : DumpHeader) :
    CrashInfo :=
  { bugcheck_code := header.bugcheck_code
    bugcheck_name := (kb_info header.bugcheck_code).1
    bugcheck_description := (kb_info header.bugcheck_code).2
    crash_address := header.bugcheck_parameter1
    crash_thread_id := 0
    parameters := [header.bugcheck_parameter1, header.bugcheck_parameter2,
      header.bugcheck_parameter3, header.bugcheck_parameter4] }

/-- Python `PageDumpParser.get_loaded_drivers`: unconditionally empty (module
enumeration from the kernel dump is an unimplemented capability gap). -/
def pagedump_loaded_drivers (_file : List Nat) : List DriverInfo := []

/-- Python `PageDumpParser.get_stack_traces`: unconditionally empty. -/
def pagedump_stack_traces (_file : List Nat) : List StackTrace := []

/-- The 14-byte literal `b"PAGEPAGEPAGEPA"` the code compares the context read
against. -/
def PAGE_FILLER_LITERAL : List Nat :=
  [80, 65, 71, 69, 80, 65, 71, 69, 80, 65, 71, 69, 80, 65]

/-- Register-name/offset table of `PageDumpParser._parse_context_x64`, in dict
insertion order. -/
def reg_offsets : List (String × Nat) := [
  ("Rax", 0x78), ("Rcx", 0x80), ("Rdx", 0x88), ("Rbx", 0x90), ("Rsp", 0x98),
  ("Rbp", 0xA0), ("Rsi", 0xA8), ("Rdi", 0xB0), ("Rip", 0xB8), ("R8", 0xC0),
  ("R9", 0xC8), ("R10", 0xD0), ("R11", 0xD8), ("R12", 0xE0), ("R13", 0xE8),
  ("R14", 0xF0), ("R15", 0xF8)]

/-- Python `PageDumpParser._parse_context_x64`: empty when the file is shorter
than `offset + 0x4F0`, otherwise the 17 registers read at the fixed
sub-offsets (each read returns exactly 8 bytes under the size guard). -/
def parse_context_x64 (file : List Nat) (offset : Nat) : List (String × Nat) :=
  if file.length < offset + 0x4F0 then []
  else reg_offsets.map fun p => (p.1, le_value (read_bytes file (offset + p.2) 8))

/-- Python `PageDumpParser.get_context_registers`: read 16 bytes at 0x200,
compare them with the (14-byte) filler literal, and when they differ parse the
x64 context there.  Lower-level failures are caught, so the function is total. -/
def get_context_registers (file : List Nat) : List (String × Nat) :=
  let ctx_data := read_bytes file 0x200 16
  if ctx_data = PAGE_FILLER_LITERAL then []
  else parse_context_x64 file 0x200

/-! ## Specification-side definitions (written from the wording of the spec,
for comparison with the code-derived definitions above) -/

/-- Specification wording of suspected-driver step 1: the first StackTrace in
input order whose first (innermost) frame resolves to a module not on the
system-driver allowlist selects that module. -/
def spec_stack_selection (drivers : List DriverInfo)
    (stack_traces : List StackTrace) : Option DriverInfo :=
  stack_traces.findSome? fun trace =>
    match trace.frames.head? with
    | none => none
    | some top_frame =>
      match find_driver_by_address drivers top_frame.instruction_address with
      | none => none
      | some m => if is_system_driver m.name then none else some m

/-- Confidence formula exactly as the claim states it: the stack boost is keyed
on AT LEAST ONE StackTrace having a frame (the code keys it on the first). -/
def claim_confidence (known_bad : List BadDriverEntry) (crash_info : CrashInfo)
    (suspected_driver : Option DriverInfo) (stack_traces : List StackTrace) : ℚ :=
  min ((1 : ℚ)/2
    + (if stack_traces.any fun trace => !trace.frames.isEmpty then 15/100 else 0)
    + (if suspected_driver.isSome then 15/100 else 0)
    + (if (match suspected_driver with
        | some driver => is_problematic known_bad driver
        | none => false) then 25/100 else 0)
    + (if common_codes.contains crash_info.bugcheck_code then 1/10 else 0)) 1

/-- Specification wording of the module-address-index tie-break: sort by base
address first, then take the first match.  Insertion sort, stable. -/
def insert_by_base (d : DriverInfo) : List DriverInfo → List DriverInfo
  | [] => [d]
  | e :: rest =>
    if d.base_address ≤ e.base_address then d :: e :: rest
    else e :: insert_by_base d rest

/-- Sort of the module list by base address (specification side). -/
def sort_by_base : List DriverInfo → List DriverInfo
  | [] => []
  | d :: rest => insert_by_base d (sort_by_base rest)

/-- Module lookup as the claim describes it: first match in base-address-sorted
order. -/
def spec_sorted_lookup (drivers : List DriverInfo) (address : Nat) :
    Option DriverInfo :=
  find_driver_by_address (sort_by_base drivers) address

/-! ## Helper lemmas -/

/-- Closed form of the sequential boost accumulation of
`calculate_confidence`. -/
lemma calculate_confidence_closed_form (known_bad : List BadDriverEntry)
    (crash_info : CrashInfo) (suspected_driver : Option DriverInfo)
    (stack_traces : List StackTrace) :
    calculate_confidence known_bad crash_info suspected_driver stack_traces =
      min ((1 : ℚ)/2
        + (if first_trace_has_frames stack_traces then 15/100 else 0)
        + (if suspected_driver.isSome then 15/100 else 0)
        + (if (match suspected_driver with
            | some driver => is_problematic known_bad driver
            | none => false) then 25/100 else 0)
        + (if common_codes.contains crash_info.bugcheck_code then 1/10 else 0)) 1 := by
  unfold calculate_confidence
  cases suspected_driver with
  | none =>
    dsimp only [Option.isSome]
    split_ifs
    all_goals simp_all
  | some driver =>
    dsimp only [Option.isSome]
    split_ifs
    all_goals simp_all

/-- Every boost of the confidence formula is nonnegative, so the clamped value
stays in the unit band above one half. -/
lemma calculate_confidence_mem (known_bad : List BadDriverEntry)
    (crash_info : CrashInfo) (suspected_driver : Option DriverInfo)
    (stack_traces : List StackTrace) :
    1/2 ≤ calculate_confidence known_bad crash_info suspected_driver stack_traces
    ∧ calculate_confidence known_bad crash_info suspected_driver stack_traces ≤ 1 := by
  rw [calculate_confidence_closed_form]
  constructor
  · apply le_min _ (by norm_num)
    split_ifs <;> norm_num
  · exact min_le_right _ _

/-- The strategy 1 loop of the analyzer computes exactly the first-match scan
described by the spec. -/
lemma suspect_from_stack_eq_spec (drivers : List DriverInfo)
    (stack_traces : List StackTrace) :
    suspect_from_stack drivers stack_traces = spec_stack_selection drivers stack_traces := by
  induction stack_traces with
  | nil => rfl
  | cons trace rest ih =>
    rw [spec_stack_selection, List.findSome?_cons]
    cases htf : trace.frames with
    | nil =>
      simp only [suspect_from_stack, htf, List.head?]
      exact ih
    | cons top_frame more =>
      simp only [suspect_from_stack, htf, List.head?]
      cases hd : find_driver_by_address drivers top_frame.instruction_address with
      | none => exact ih
      | some driver =>
        by_cases hsys : is_system_driver driver.name
        · simp only [hsys, if_true, if_false, ite_true]
          exact ih
        · simp [hsys]

/-! ## Claim theorems -/

/-- Claim C1: suspected-driver selection follows the fixed priority order with
first match winning: the first stack trace whose innermost frame resolves to a
non-system driver wins; only otherwise the first known-bad driver in list
order; only otherwise the driver containing the crash address; otherwise none. -/
theorem suspected_driver_priority (known_bad : List BadDriverEntry)
    (crash_info : CrashInfo) (drivers : List DriverInfo)
    (stack_traces : List StackTrace) :
    find_suspected_driver known_bad crash_info drivers stack_traces =
      (spec_stack_selection drivers stack_traces).orElse fun _ =>
        ((drivers.find? fun driver => is_problematic known_bad driver).orElse fun _ =>
          find_driver_by_address drivers crash_info.crash_address) := by
  unfold find_suspected_driver
  rw [suspect_from_stack_eq_spec]
  cases spec_stack_selection drivers stack_traces with
  | some driver => rfl
  | none =>
    cases drivers.find? fun driver => is_problematic known_bad driver with
    | some driver => rfl
    | none => rfl

/-- Claim C2 counterexample input: two stack traces, the first without frames,
the second with one frame. -/
def c2_crash : CrashInfo :=
  { bugcheck_code := 0, bugcheck_name := "", bugcheck_description := ""
    crash_address := 0, crash_thread_id := 0 }

/-- Claim C2 counterexample stack-trace list. -/
def c2_traces : List StackTrace :=
  [{ thread_id := 1, frames := [] },
   { thread_id := 2, frames := [{ instruction_address := 0x1000, module_name := "x" }] }]

/-- Claim C2 is false as stated: with a first frameless trace followed by a
trace with a frame, the code gives 0.5 while the claimed formula gives 0.65. -/
theorem confidence_claim_counterexample :
    calculate_confidence KNOWN_BAD_DRIVERS c2_crash none c2_traces = 1/2
    ∧ claim_confidence KNOWN_BAD_DRIVERS c2_crash none c2_traces = 13/20
    ∧ calculate_confidence KNOWN_BAD_DRIVERS c2_crash none c2_traces ≠
        claim_confidence KNOWN_BAD_DRIVERS c2_crash none c2_traces := by
  have h1 : calculate_confidence KNOWN_BAD_DRIVERS c2_crash none c2_traces = 1/2 := by
    rw [calculate_confidence_closed_form]
    norm_num [first_trace_has_frames, c2_traces, c2_crash, common_codes]
  have h2 : claim_confidence KNOWN_BAD_DRIVERS c2_crash none c2_traces = 13/20 := by
    unfold claim_confidence
    norm_num [c2_traces, c2_crash, common_codes, List.any]
  exact ⟨h1, h2, by rw [h1, h2]; norm_num⟩

/-- Claim C2 as amended: the confidence equals the additive formula clamped at
1.0, with the 0.15 stack boost keyed on the FIRST stack trace having at least
one frame (not on any trace having one). -/
theorem confidence_amended_formula (known_bad : List BadDriverEntry)
    (crash_info : CrashInfo) (suspected_driver : Option DriverInfo)
    (stack_traces : List StackTrace) :
    calculate_confidence known_bad crash_info suspected_driver stack_traces =
      min ((1 : ℚ)/2
        + (if first_trace_has_frames stack_traces then 15/100 else 0)
        + (if suspected_driver.isSome then 15/100 else 0)
        + (if (match suspected_driver with
            | some driver => is_problematic known_bad driver
            | none => false) then 25/100 else 0)
        + (if common_codes.contains crash_info.bugcheck_code then 1/10 else 0)) 1 :=
  calculate_confidence_closed_form known_bad crash_info suspected_driver stack_traces

/-- Claim C10: the confidence score always lies in the closed interval
from 0.5 to 1.0. -/
theorem confidence_bounds (known_bad : List BadDriverEntry)
    (crash_info : CrashInfo) (suspected_driver : Option DriverInfo)
    (stack_traces : List StackTrace) :
    1/2 ≤ calculate_confidence known_bad crash_info suspected_driver stack_traces
    ∧ calculate_confidence known_bad crash_info suspected_driver stack_traces ≤ 1 :=
  calculate_confidence_mem known_bad crash_info suspected_driver stack_traces

/-- Non-overlap of two half-open module address ranges. -/
def ranges_disjoint (d e : DriverInfo) : Prop :=
  d.base_address + d.size ≤ e.base_address
  ∨ e.base_address + e.size ≤ d.base_address

instance : DecidableRel ranges_disjoint := fun d e => by
  unfold ranges_disjoint; infer_instance

/-- Unfolding of the containment test. -/
lemma contains_address_iff (d : DriverInfo) (a : Nat) :
    contains_address d a = true ↔
      d.base_address ≤ a ∧ a < d.base_address + d.size := by
  simp [contains_address]

/-- Equation lemma for the lookup scan on a cons cell. -/
lemma find_driver_by_address_cons (drivers : List DriverInfo) (e : DriverInfo)
    (a : Nat) :
    find_driver_by_address (e :: drivers) a =
      if contains_address e a then some e else find_driver_by_address drivers a := by
  rw [find_driver_by_address, find_driver_by_address]
  cases he : contains_address e a <;> simp [List.find?_cons, he]

/-- Claim C3: the lookup interval is half open.  With pairwise non-overlapping
ranges a contained address resolves to its module; an address exactly at
base + size never resolves to that module; in the single-module case it is
labeled Unknown; the empty list always yields none / Unknown. -/
theorem module_lookup_half_open :
    (∀ (drivers : List DriverInfo) (m : DriverInfo) (a : Nat),
      drivers.Pairwise ranges_disjoint → m ∈ drivers →
      m.base_address ≤ a → a < m.base_address + m.size →
      find_driver_by_address drivers a = some m)
    ∧ (∀ (drivers : List DriverInfo) (m : DriverInfo),
      find_driver_by_address drivers (m.base_address + m.size) ≠ some m)
    ∧ (∀ m : DriverInfo,
      find_module_for_address [m] (m.base_address + m.size) = "Unknown")
    ∧ (∀ a : Nat, find_driver_by_address [] a = none
      ∧ find_module_for_address [] a = "Unknown") := by
  refine ⟨?_, ?_, ?_, ?_⟩
  · intro drivers
    induction drivers with
    | nil => intro m a _ hm; exact absurd hm (List.not_mem_nil m)
    | cons d rest ih =>
      intro m a hpw hm hle hlt
      have hpw' := List.pairwise_cons.mp hpw
      by_cases hd : contains_address d a = true
      · have hdm : d = m := by
          rcases List.mem_cons.mp hm with h | h
          · exact h.symm
          · exfalso
            have hdis := hpw'.1 m h
            have hc := (contains_address_iff d a).mp hd
            rcases hdis with h1 | h1 <;> omega
        subst hdm
        rw [find_driver_by_address_cons, if_pos hd]
      · have hm' : m ∈ rest := by
          rcases List.mem_cons.mp hm with h | h
          · exact absurd ((contains_address_iff d a).mpr (h ▸ ⟨hle, hlt⟩)) hd
          · exact h
        rw [find_driver_by_address_cons, if_neg hd]
        exact ih m a hpw'.2 hm' hle hlt
  · intro drivers m h
    have h2 := List.find?_some h
    simp only [contains_address_iff] at h2
    omega
  · intro m
    have hfalse : contains_address m (m.base_address + m.size) = false := by
      rw [← Bool.not_eq_true, contains_address_iff]
      omega
    simp [find_module_for_address, List.find?_cons, hfalse]
  · intro a; exact ⟨rfl, rfl⟩

/-- Claim C3 at concrete inputs: two disjoint modules, an interior address of
the first resolves to it; their shared boundary address does not resolve to
the lower module; a singleton list labels its exclusive upper bound Unknown. -/
theorem module_lookup_half_open_witness :
    find_driver_by_address
      [⟨"a.sys", 0x1000, 0x100, 0⟩, ⟨"b.sys", 0x2000, 0x100, 0⟩] 0x1050 =
        some ⟨"a.sys", 0x1000, 0x100, 0⟩
    ∧ find_driver_by_address [⟨"a.sys", 0x1000, 0x100, 0⟩] 0x1100 ≠
        some ⟨"a.sys", 0x1000, 0x100, 0⟩
    ∧ find_module_for_address [⟨"a.sys", 0x1000, 0x100, 0⟩] 0x1100 = "Unknown"
    ∧ find_driver_by_address [] 0x1050 = none :=
  ⟨module_lookup_half_open.1 _ ⟨"a.sys", 0x1000, 0x100, 0⟩ 0x1050
      (by decide) (by decide) (by decide) (by decide),
    module_lookup_half_open.2.1 [⟨"a.sys", 0x1000, 0x100, 0⟩] ⟨"a.sys", 0x1000, 0x100, 0⟩,
    module_lookup_half_open.2.2.1 ⟨"a.sys", 0x1000, 0x100, 0⟩,
    (module_lookup_half_open.2.2.2 0x1050).1⟩

/-- Claim C4 counterexample module with the larger range, listed second. -/
def c4_big : DriverInfo := { name := "big.sys", base_address := 0x1000, size := 0x2000 }

/-- Claim C4 counterexample module with the smaller, overlapping range, listed
first. -/
def c4_small : DriverInfo := { name := "small.sys", base_address := 0x2000, size := 0x100 }

/-- Claim C4 is false as stated: for the overlapping modules given in the order
[small, big], address 0x2050 is covered by both; the first match in
base-address-sorted order is big.sys, but the code resolves to small.sys
because it scans the list in its given order without sorting. -/
theorem module_lookup_sorted_counterexample :
    spec_sorted_lookup [c4_small, c4_big] 0x2050 = some c4_big
    ∧ find_driver_by_address [c4_small, c4_big] 0x2050 = some c4_small
    ∧ c4_big ≠ c4_small := by
  refine ⟨by decide, by decide, by decide⟩

/-- Claim C4 as amended: for duplicate or overlapping ranges the lookup returns
the first matching module in INPUT list order (no sort is performed), so an
address covered by several modules resolves to whichever match comes first in
the list as given. -/
theorem module_lookup_input_order (drivers : List DriverInfo) (a : Nat)
    (d : DriverInfo) :
    find_driver_by_address drivers a = some d ↔
      ∃ before after, drivers = before ++ d :: after
        ∧ contains_address d a = true
        ∧ ∀ e ∈ before, contains_address e a = false := by
  induction drivers with
  | nil =>
    constructor
    · intro h
      rw [find_driver_by_address, List.find?_nil] at h
      exact absurd h (by simp)
    · rintro ⟨before, after, habs, -, -⟩
      cases before <;> simp_all
  | cons e rest ih =>
    by_cases he : contains_address e a = true
    · rw [find_driver_by_address_cons, if_pos he]
      constructor
      · intro h
        obtain rfl : e = d := by injection h
        exact ⟨[], rest, rfl, he, by simp⟩
      · rintro ⟨before, after, hsplit, hd, hall⟩
        cases before with
        | nil =>
          obtain ⟨rfl, -⟩ : e = d ∧ rest = after := by
            constructor <;> injection hsplit
          rfl
        | cons x xs =>
          obtain ⟨rfl, -⟩ : e = x ∧ rest = xs ++ d :: after := by
            constructor <;> injection hsplit
          exact absurd he (by simp [hall e (List.mem_cons_self e xs)])
    · rw [find_driver_by_address_cons, if_neg he, ih]
      constructor
      · rintro ⟨before, after, hsplit, hd, hall⟩
        refine ⟨e :: before, after, by rw [hsplit]; rfl, hd, ?_⟩
        intro x hx
        rcases List.mem_cons.mp hx with h | h
        · rw [h]; exact Bool.eq_false_iff.mpr he
        · exact hall x h
      · rintro ⟨before, after, hsplit, hd, hall⟩
        cases before with
        | nil =>
          exfalso
          obtain ⟨rfl, -⟩ : e = d ∧ rest = after := by
            constructor <;> injection hsplit
          exact he hd
        | cons x xs =>
          obtain ⟨rfl, hrest⟩ : e = x ∧ rest = xs ++ d :: after := by
            constructor <;> injection hsplit
          exact ⟨xs, after, hrest, hd, fun y hy => hall y (List.mem_cons_of_mem e hy)⟩

/-- First four bytes read through an eight-byte prefix are the first four
bytes of the file. -/
lemma take_eight_take_four (bytes : List Nat) :
    (bytes.take 8).take 4 = bytes.take 4 := by
  rw [List.take_take]
  norm_num

/-- Taking eight bytes twice is taking them once. -/
lemma take_eight_take_eight (bytes : List Nat) :
    (bytes.take 8).take 8 = bytes.take 8 := by
  rw [List.take_take]
  norm_num

/-- Claim C5: format detection on the first 8 bytes of an existing non-empty
file has exactly four outcomes: MDMP selects the structured-minidump decoder,
PAGEDU64 the kernel-dump decoder, PAGEDU48 yields the 32-bit kernel-dump type
in validation (and an explicit unsupported-signature error in the factory),
and anything else fails carrying the offending 8 bytes. -/
theorem format_detection_outcomes (bytes : List Nat) (st_size : Nat)
    (hsz : st_size ≠ 0) :
    (bytes.take 4 = MDMP_MAGIC →
      validate_file true st_size bytes = .ok .minidump
      ∧ createParser true st_size bytes = .ok .MinidumpKind)
    ∧ (bytes.take 8 = PAGEDU64_MAGIC →
      validate_file true st_size bytes = .ok .kernel_x64
      ∧ createParser true st_size bytes = .ok .PageDumpKind)
    ∧ (bytes.take 8 = PAGEDU48_MAGIC →
      validate_file true st_size bytes = .ok .kernel_x86
      ∧ createParser true st_size bytes = .error (.UnsupportedSignature (bytes.take 8)))
    ∧ (bytes.take 4 ≠ MDMP_MAGIC → bytes.take 8 ≠ PAGEDU64_MAGIC →
      bytes.take 8 ≠ PAGEDU48_MAGIC →
      validate_file true st_size bytes = .error (.InvalidSignature (bytes.take 8))
      ∧ createParser true st_size bytes = .error (.UnsupportedSignature (bytes.take 8))) := by
  have h48 := take_eight_take_four bytes
  have h88 := take_eight_take_eight bytes
  refine ⟨?_, ?_, ?_, ?_⟩
  · intro h4
    have hne64 : bytes.take 8 ≠ PAGEDU64_MAGIC := by
      intro h8
      have hx : bytes.take 4 = [80, 65, 71, 69] := by rw [← h48, h8]; rfl
      rw [h4] at hx
      exact absurd hx (by decide)
    exact ⟨by simp [validate_file, hsz, h48, h4, MDMP_MAGIC, PAGEDU64_MAGIC, PAGEDU48_MAGIC],
      by
        have hne64l : bytes.take 8 ≠ [80, 65, 71, 69, 68, 85, 54, 52] := hne64
        simp [createParser, hsz, h48, h88, h4, hne64l, MDMP_MAGIC, PAGEDU64_MAGIC]⟩
  · intro h8
    have hne4 : bytes.take 4 ≠ MDMP_MAGIC := by
      intro h4
      have hx : bytes.take 4 = [80, 65, 71, 69] := by rw [← h48, h8]; rfl
      rw [h4] at hx
      exact absurd hx (by decide)
    exact ⟨by simp [validate_file, hsz, h48, h88, h8, hne4, MDMP_MAGIC, PAGEDU64_MAGIC, PAGEDU48_MAGIC],
      by simp [createParser, hsz, h88, h8, MDMP_MAGIC, PAGEDU64_MAGIC, PAGEDU48_MAGIC]⟩
  · intro h8
    have hne4 : bytes.take 4 ≠ MDMP_MAGIC := by
      intro h4
      have hx : bytes.take 4 = [80, 65, 71, 69] := by rw [← h48, h8]; rfl
      rw [h4] at hx
      exact absurd hx (by decide)
    have hne64 : bytes.take 8 ≠ PAGEDU64_MAGIC := by
      rw [h8]; decide
    exact ⟨by simp [validate_file, hsz, h48, h88, h8, hne4, MDMP_MAGIC, PAGEDU64_MAGIC, PAGEDU48_MAGIC],
      by simp [createParser, hsz, h48, h88, h8, hne4, hne64, MDMP_MAGIC, PAGEDU64_MAGIC, PAGEDU48_MAGIC]⟩
  · intro hne4 hne64 hne48
    exact ⟨by simp [validate_file, hsz, h48, h88, hne4, hne64, hne48],
      by simp [createParser, hsz, h48, h88, hne4, hne64, hne48]⟩

/-- Claim C5 at concrete inputs: one file per detection outcome. -/
theorem format_detection_witness :
    validate_file true 16 [77, 68, 77, 80, 1, 2, 3, 4] = .ok .minidump
    ∧ validate_file true 8 [80, 65, 71, 69, 68, 85, 54, 52] = .ok .kernel_x64
    ∧ validate_file true 8 [80, 65, 71, 69, 68, 85, 52, 56] = .ok .kernel_x86
    ∧ validate_file true 4 [1, 2, 3, 4] = .error (.InvalidSignature [1, 2, 3, 4])
    ∧ createParser true 8 [80, 65, 71, 69, 68, 85, 54, 52] = .ok .PageDumpKind :=
  ⟨((format_detection_outcomes [77, 68, 77, 80, 1, 2, 3, 4] 16 (by decide)).1 (by decide)).1,
   ((format_detection_outcomes [80, 65, 71, 69, 68, 85, 54, 52] 8 (by decide)).2.1 (by decide)).1,
   ((format_detection_outcomes [80, 65, 71, 69, 68, 85, 52, 56] 8 (by decide)).2.2.1 (by decide)).1,
   ((format_detection_outcomes [1, 2, 3, 4] 4 (by decide)).2.2.2
      (by decide) (by decide) (by decide)).1,
   ((format_detection_outcomes [80, 65, 71, 69, 68, 85, 54, 52] 8 (by decide)).2.1 (by decide)).2⟩

/-- Value carried by a successful 32-bit read. -/
lemma read_u32_eq_some (file : List Nat) (off v : Nat)
    (h : read_u32 file off = some v) : v = le_value (read_bytes file off 4) := by
  simp only [read_u32] at h
  split at h
  · injection h with h
    exact h.symm
  · exact absurd h (by simp)

/-- Value carried by a successful 64-bit read. -/
lemma read_u64_eq_some (file : List Nat) (off v : Nat)
    (h : read_u64 file off = some v) : v = le_value (read_bytes file off 8) := by
  simp only [read_u64] at h
  split at h
  · injection h with h
    exact h.symm
  · exact absurd h (by simp)

/-- Bugcheck-code field of a successfully parsed kernel-dump header. -/
lemma parse_header_bugcheck (file : List Nat) (header : DumpHeader)
    (h : parse_header file = some header) :
    read_u32 file 0x40 = some header.bugcheck_code := by
  unfold parse_header at h
  split at h
  · injection h with h
    subst h
    assumption
  · exact absurd h (by simp)

/-- First-parameter field of a successfully parsed kernel-dump header. -/
lemma parse_header_param1 (file : List Nat) (header : DumpHeader)
    (h : parse_header file = some header) :
    read_u64 file 0x44 = some header.bugcheck_parameter1 := by
  unfold parse_header at h
  split at h
  · injection h with h
    subst h
    assumption
  · exact absurd h (by simp)

/-- Claim C6: a decoded PAGEDU64 kernel dump yields an empty module list and an
empty stack-trace list, and its CrashInfo takes the bugcheck code from the
little-endian u32 at header offset 0x40 and the crash address from the first
bugcheck parameter, the little-endian u64 at offset 0x44. -/
theorem kernel_dump_gap_and_offsets (file : List Nat) (header : DumpHeader)
    (kb_info : Nat → String × String)
    (h : parse_header file = some header) :
    pagedump_loaded_drivers file = []
    ∧ pagedump_stack_traces file = []
    ∧ (extract_crash_info kb_info header).bugcheck_code =
        le_value (read_bytes file 0x40 4)
    ∧ (extract_crash_info kb_info header).crash_address =
        le_value (read_bytes file 0x44 8) := by
  refine ⟨rfl, rfl, ?_, ?_⟩
  · exact read_u32_eq_some file 0x40 header.bugcheck_code (parse_header_bugcheck file header h)
  · exact read_u64_eq_some file 0x44 header.bugcheck_parameter1 (parse_header_param1 file header h)

/-- Concrete 100-byte kernel-dump file: PAGEDU64 signature then zeros. -/
def c6_file : List Nat := PAGEDU64_MAGIC ++ List.replicate 92 0

/-- Header parsed from `c6_file`. -/
def c6_header : DumpHeader :=
  { signature := PAGEDU64_MAGIC, major_version := 0, minor_version := 0
    directory_table_base := 0, machine_image_type := 0, number_processors := 0
    bugcheck_code := 0, bugcheck_parameter1 := 0, bugcheck_parameter2 := 0
    bugcheck_parameter3 := 0, bugcheck_parameter4 := 0 }

/-- Claim C6 at a concrete input. -/
theorem kernel_dump_gap_witness :
    pagedump_loaded_drivers c6_file = []
    ∧ pagedump_stack_traces c6_file = []
    ∧ (extract_crash_info (fun _ => ("", "")) c6_header).bugcheck_code =
        le_value (read_bytes c6_file 0x40 4)
    ∧ (extract_crash_info (fun _ => ("", "")) c6_header).crash_address =
        le_value (read_bytes c6_file 0x44 8) :=
  kernel_dump_gap_and_offsets c6_file c6_header (fun _ => ("", "")) (by decide)

/-- Concrete kernel-dump file of 0x6F0 bytes whose whole context region at
0x200 is the PAGE filler pattern. -/
def page_filler_file : List Nat :=
  PAGEDU64_MAGIC ++ List.replicate 504 0 ++
    (List.replicate 316 [80, 65, 71, 69]).flatten

set_option maxRecDepth 40000 in
/-- Claim C7 fails on the code: on a file whose context region at offset 0x200
is exactly the PAGE-repeated filler, the 16 bytes read never equal the 14-byte
literal the code compares against, so the extraction returns 17 registers
decoded from the filler instead of the empty result the claim requires. -/
theorem context_filler_not_detected :
    read_bytes page_filler_file 0x200 16 =
      [80, 65, 71, 69, 80, 65, 71, 69, 80, 65, 71, 69, 80, 65, 71, 69]
    ∧ get_context_registers page_filler_file ≠ []
    ∧ (get_context_registers page_filler_file).length = 17 := by
  refine ⟨by decide, by decide, by decide⟩

/-- Membership in the first-occurrence dedup with an explicit seen set. -/
lemma mem_dedup_keep_first_aux (x : String) (l : List String) :
    ∀ seen, x ∈ dedup_keep_first_aux seen l ↔ x ∈ l ∧ x ∉ seen := by
  induction l with
  | nil => intro seen; simp [dedup_keep_first_aux]
  | cons y ys ih =>
    intro seen
    by_cases hy : y ∈ seen
    · rw [dedup_keep_first_aux, if_pos hy, ih seen, List.mem_cons]
      constructor
      · rintro ⟨h1, h2⟩; exact ⟨Or.inr h1, h2⟩
      · rintro ⟨h1 | h1, h2⟩
        · exact absurd (h1 ▸ hy) h2
        · exact ⟨h1, h2⟩
    · rw [dedup_keep_first_aux, if_neg hy, List.mem_cons, ih (y :: seen),
        List.mem_cons, List.mem_cons]
      constructor
      · rintro (rfl | ⟨h1, h2⟩)
        · exact ⟨Or.inl rfl, hy⟩
        · exact ⟨Or.inr h1, fun hx => h2 (Or.inr hx)⟩
      · rintro ⟨rfl | h1, h2⟩
        · exact Or.inl rfl
        · by_cases hxy : x = y
          · exact Or.inl hxy
          · exact Or.inr ⟨h1, fun hx => (hx.elim hxy fun hs => h2 hs)⟩

/-- The first-occurrence dedup never emits a string twice. -/
lemma nodup_dedup_keep_first_aux (l : List String) :
    ∀ seen, (dedup_keep_first_aux seen l).Nodup := by
  induction l with
  | nil => intro seen; simp [dedup_keep_first_aux]
  | cons y ys ih =>
    intro seen
    by_cases hy : y ∈ seen
    · rw [dedup_keep_first_aux, if_pos hy]; exact ih seen
    · rw [dedup_keep_first_aux, if_neg hy, List.nodup_cons]
      refine ⟨fun hmem => ?_, ih (y :: seen)⟩
      exact ((mem_dedup_keep_first_aux y ys (y :: seen)).mp hmem).2 (List.mem_cons_self y seen)

/-- Claim C8 counterexample: with two distinct knowledge-base recommendations
and no suspected driver, the produced list is [a, b]; the reversed list [b, a]
satisfies everything the set-based dedup of the code guarantees, yet is not the
order-preserving dedup the claim asserts, so the output order is not
guaranteed. -/
theorem recommendations_order_counterexample :
    PySetListResult (generate_recommendations_raw KNOWN_BAD_DRIVERS ["a", "b"] none)
      ["b", "a"]
    ∧ ["b", "a"] ≠
        dedup_keep_first (generate_recommendations_raw KNOWN_BAD_DRIVERS ["a", "b"] none) := by
  refine ⟨⟨by decide, ?_⟩, by decide⟩
  intro x
  show x ∈ ["b", "a"] ↔ x ∈ generate_recommendations_raw KNOWN_BAD_DRIVERS ["a", "b"] none
  have : generate_recommendations_raw KNOWN_BAD_DRIVERS ["a", "b"] none = ["a", "b"] := by
    rfl
  rw [this]
  simp [List.mem_cons]
  tauto

/-- Claim C8 as amended: the recommendation list the code returns has no
duplicate entries and consists of exactly the distinct recommendations
produced, i.e. it is a permutation of the order-preserving dedup; the relative
order itself is unspecified because the dedup is set-based. -/
theorem recommendations_dedup (known_bad : List BadDriverEntry)
    (kb_recommendations : List String) (suspected_driver : Option DriverInfo)
    (out : List String)
    (h : PySetListResult
      (generate_recommendations_raw known_bad kb_recommendations suspected_driver) out) :
    out.Nodup
    ∧ out.Perm
        (dedup_keep_first
          (generate_recommendations_raw known_bad kb_recommendations suspected_driver)) := by
  obtain ⟨hnd, hmem⟩ := h
  refine ⟨hnd, ?_⟩
  have hnd2 : (dedup_keep_first
      (generate_recommendations_raw known_bad kb_recommendations suspected_driver)).Nodup :=
    nodup_dedup_keep_first_aux _ []
  rw [List.perm_ext_iff_of_nodup hnd hnd2]
  intro x
  rw [hmem x, dedup_keep_first, mem_dedup_keep_first_aux]
  simp

/-- Claim C8 amended theorem at a concrete input. -/
theorem recommendations_dedup_witness :
    (["b", "a"] : List String).Nodup
    ∧ (["b", "a"] : List String).Perm
        (dedup_keep_first (generate_recommendations_raw KNOWN_BAD_DRIVERS ["a", "b"] none)) :=
  recommendations_dedup KNOWN_BAD_DRIVERS ["a", "b"] none ["b", "a"]
    ⟨by decide, by
      intro x
      show x ∈ ["b", "a"] ↔ x ∈ generate_recommendations_raw KNOWN_BAD_DRIVERS ["a", "b"] none
      have : generate_recommendations_raw KNOWN_BAD_DRIVERS ["a", "b"] none = ["a", "b"] := by
        rfl
      rw [this]
      simp [List.mem_cons]
      tauto⟩

/-- Claim C9: parser creation fails with the not-found error when the file does
not exist, and with the empty-file error when its size is 0, in both the
factory and the validation path; the empty-file outcome is the same for every
byte content, so no byte is consulted and no decoding begins. -/
theorem notfound_empty_errors (st_size : Nat) (bytes : List Nat) :
    (createParser false st_size bytes = .error .NotFound
      ∧ validate_file false st_size bytes = .error .NotFound)
    ∧ (createParser true 0 bytes = .error .EmptyFile
      ∧ validate_file true 0 bytes = .error .EmptyFile) :=
  ⟨⟨rfl, rfl⟩, ⟨rfl, rfl⟩⟩

end BSOD
